import Mathlib

/-!
Verification of `src/server/lib/traefik/getTraefikConfig.ts` (the dynamic
routing-configuration synthesizer).  The TypeScript source is shallowly
embedded below: each definition mirrors one piece of the source function
`getTraefikConfig`, with JavaScript truthiness, `||` / `??` defaulting,
string splitting/joining and array operations made explicit.

External collaborators that live outside the embedded file
(`sanitize` and `validatePathRewriteConfig` from `./utils`,
`createPathRewriteMiddleware` from `./middleware`, `JSON.parse`,
process configuration `config.getRawConfig().traefik`) are modelled as
explicit parameters or, where noted, from the specification's words.
-/

namespace Pangolin

/-! ### JavaScript primitive semantics -/

/-- Truthiness of a nullable string: `null`/`undefined` and `""` are falsy. -/
def truthyS : Option String → Bool
  | none => false
  | some s => s ≠ ""

/-- Truthiness of a nullable number: `null`/`undefined` and `0` are falsy. -/
def truthyN : Option Nat → Bool
  | none => false
  | some n => n ≠ 0

/-- JavaScript `x || d` for a nullable string `x` (empty string falls back). -/
def jsOrStr (x : Option String) (d : String) : String :=
  match x with
  | some s => if s ≠ "" then s else d
  | none => d

/-- JavaScript `x || d` for a nullable number `x` (zero falls back). -/
def jsOrNat (x : Option Nat) (d : Nat) : Nat :=
  match x with
  | some n => if n ≠ 0 then n else d
  | none => d

/-- JavaScript `String.prototype.split` with a one-character separator,
working on the character list (`"".split(sep)` is `[""]`). -/
def splitChars (sep : Char) : List Char → List (List Char)
  | [] => [[]]
  | c :: cs =>
    let r := splitChars sep cs
    if c = sep then [] :: r
    else
      match r with
      | [] => [[c]]
      | h :: t => (c :: h) :: t

/-- JavaScript `s.split(sep)` for a one-character separator. -/
def jsSplit (sep : Char) (s : String) : List String :=
  (splitChars sep s.data).map String.mk

/-- JavaScript `s.trim()`. -/
def jsTrim (s : String) : String :=
  String.mk (((s.data.dropWhile Char.isWhitespace).reverse.dropWhile Char.isWhitespace).reverse)

/-- JavaScript `s.toLowerCase()`. -/
def jsToLower (s : String) : String := String.mk (s.data.map Char.toLower)

/-- JavaScript `s.startsWith("/")`. -/
def startsWithSlash (s : String) : Bool :=
  match s.data with
  | '/' :: _ => true
  | _ => false

/-- JavaScript `Array.prototype.findIndex` (first matching index), as an
option; `jsFindIndex` below packages it as the `-1`-on-failure integer. -/
def jsFindIdx {α : Type} (p : α → Bool) : List α → Option Nat
  | [] => none
  | x :: xs => if p x then some 0 else (jsFindIdx p xs).map (· + 1)

/-- JavaScript `Array.prototype.findIndex`: `-1` when no element matches. -/
def jsFindIndex {α : Type} (p : α → Bool) (l : List α) : Int :=
  match jsFindIdx p l with
  | some k => (k : Int)
  | none => -1

/-! ### Data model: rows, sites, targets, groups (lines 132-193 of the source) -/

/-- Site snapshot embedded in each target (`TargetWithSite.site`). -/
structure SiteInfo where
  siteId : Nat
  type : String
  subnet : Option String
  exitNodeId : Option Nat
  online : Bool
deriving DecidableEq

/-- One target together with its site (`TargetWithSite` in the source). -/
structure TargetWithSite where
  resourceId : Nat
  targetId : Nat
  ip : Option String
  method : Option String
  port : Option Nat
  internalPort : Option Nat
  enabled : Bool
  site : SiteInfo
deriving DecidableEq

/-- One joined row as returned by the snapshot query (lines 145-224).
The query's own WHERE-filtering happens upstream; the synthesizer
consumes the rows as given. -/
structure Row where
  resourceId : Nat
  resourceName : String
  fullDomain : Option String
  ssl : Bool
  http : Bool
  proxyPort : Option Nat
  protocol : String
  subdomain : Bool
  domainId : Option Nat
  enabled : Bool
  stickySession : Bool
  tlsServerName : Option String
  setHostHeader : Option String
  enableProxy : Bool
  headers : Option String
  proxyProtocol : Bool
  proxyProtocolVersion : Option Nat
  maintenanceModeEnabled : Bool
  maintenanceModeType : Option String
  targetId : Nat
  targetEnabled : Bool
  ip : Option String
  method : Option String
  port : Option Nat
  internalPort : Option Nat
  path : Option String
  pathMatchType : Option String
  rewritePath : Option String
  rewritePathType : Option String
  priority : Option Int
  siteId : Nat
  siteType : String
  siteOnline : Bool
  subnet : Option String
  exitNodeId : Option Nat
  domainCertResolver : Option String
deriving DecidableEq

/-- One aggregated route group (the value stored in `resourcesMap`,
lines 265-296).  Note: the source's object literal does NOT copy any
`preferWildcardCert` field (none is selected by the query either), so a
later read of `resource.preferWildcardCert` yields `undefined`; we model
that by a field that aggregation always sets to `none`. -/
structure ResourceGroup where
  resourceId : Nat
  name : String
  fullDomain : Option String
  ssl : Bool
  http : Bool
  proxyPort : Option Nat
  protocol : String
  subdomain : Bool
  domainId : Option Nat
  enabled : Bool
  stickySession : Bool
  tlsServerName : Option String
  setHostHeader : Option String
  enableProxy : Bool
  headers : Option String
  proxyProtocol : Bool
  proxyProtocolVersion : Nat
  path : Option String
  pathMatchType : Option String
  rewritePath : Option String
  rewritePathType : Option String
  priority : Int
  domainCertResolver : Option String
  maintenanceModeEnabled : Bool
  maintenanceModeType : Option String
  preferWildcardCert : Option Bool
  targets : List TargetWithSite
deriving DecidableEq

/-- Process-wide traefik configuration (`config.getRawConfig().traefik`). -/
structure Cfg where
  http_entrypoint : String
  https_entrypoint : String
  cert_resolver : String
  prefer_wildcard_cert : Bool
  maintenance_port : Option Nat
  maintenance_host : Option String
  additional_middlewares : Option (List String)
  ppTransportPfx : String
deriving DecidableEq

/-- Result of `createPathRewriteMiddleware`: names of the middlewares it
defines, and an optional explicit chain of names to append to the router. -/
structure RewriteResult where
  middlewares : List String
  chain : Option (List String)
deriving DecidableEq

/-- External collaborators, not part of the embedded source file.
`validate` stands for `validatePathRewriteConfig` (from `./utils`),
`rewriteFn` for `createPathRewriteMiddleware` (from `./middleware`,
`none` models a thrown exception), `parseHeaders` for `JSON.parse` of the
serialized header list (`none` models a parse failure). -/
structure Ext where
  validate : Option String → Option String → Option String → Option String → Bool
  rewriteFn : String → String → String → String → String → Option RewriteResult
  parseHeaders : String → Option (List (String × String))

/-! ### Route-group aggregation (lines 227-315) -/

/-- Modelled from the spec: `sanitize` (from `./utils`, not part of the
embedded source).  The spec says only that the key components are
"joined into a deterministic string, collision-sanitized" and gives no
transformation of the text itself, so it is modelled as the identity. -/
def sanitize (s : String) : String := s

/-- The per-group path key (lines 239-246): the four sanitized path/rewrite
components with the falsy (empty) ones dropped, joined by `"-"`. -/
def rowPathKey (row : Row) : String :=
  String.intercalate "-"
    (([(row.path.map sanitize).getD "",
       row.pathMatchType.getD "",
       row.rewritePath.getD "",
       row.rewritePathType.getD ""]).filter (fun s => s ≠ ""))

/-- The group key (lines 247-248): resource id and path key, falsy components
dropped, joined by `"-"`, then sanitized. -/
def rowKey (row : Row) : String :=
  sanitize (String.intercalate "-"
    ((if row.resourceId ≠ 0 then [toString row.resourceId] else []) ++
     (if rowPathKey row ≠ "" then [rowPathKey row] else [])))

/-- The target pushed onto a group's target list (lines 299-314). -/
def targetOfRow (row : Row) : TargetWithSite :=
  { resourceId := row.resourceId
    targetId := row.targetId
    ip := row.ip
    method := row.method
    port := row.port
    internalPort := row.internalPort
    enabled := row.targetEnabled
    site :=
      { siteId := row.siteId
        type := row.siteType
        subnet := row.subnet
        exitNodeId := row.exitNodeId
        online := row.siteOnline } }

/-- The group record created on first sighting of a key (lines 265-296);
`preferWildcardCert` is `none` because the source stores no such field. -/
def groupOfRow (row : Row) : ResourceGroup :=
  { resourceId := row.resourceId
    name := sanitize row.resourceName
    fullDomain := row.fullDomain
    ssl := row.ssl
    http := row.http
    proxyPort := row.proxyPort
    protocol := row.protocol
    subdomain := row.subdomain
    domainId := row.domainId
    enabled := row.enabled
    stickySession := row.stickySession
    tlsServerName := row.tlsServerName
    setHostHeader := row.setHostHeader
    enableProxy := row.enableProxy
    headers := row.headers
    proxyProtocol := row.proxyProtocol
    proxyProtocolVersion := row.proxyProtocolVersion.getD 1
    path := row.path
    pathMatchType := row.pathMatchType
    rewritePath := row.rewritePath
    rewritePathType := row.rewritePathType
    priority := row.priority.getD 100
    domainCertResolver := row.domainCertResolver
    maintenanceModeEnabled := row.maintenanceModeEnabled
    maintenanceModeType := row.maintenanceModeType
    preferWildcardCert := none
    targets := [] }

/-- Association-list lookup, modelling `Map.get` / keyed object access. -/
def lookup {α : Type} : List (String × α) → String → Option α
  | [], _ => none
  | (k0, v0) :: rest, k => if k0 = k then some v0 else lookup rest k

/-- Association-list insert-or-replace, modelling `Map.set` /
keyed object assignment (replacement keeps the original position). -/
def upsert {α : Type} : List (String × α) → String → α → List (String × α)
  | [], k, v => [(k, v)]
  | (k0, v0) :: rest, k, v =>
    if k0 = k then (k, v) :: rest else (k0, v0) :: upsert rest k v

/-- Append a target to the group stored under `key`. -/
def pushTarget (m : List (String × ResourceGroup)) (key : String)
    (t : TargetWithSite) : List (String × ResourceGroup) :=
  m.map (fun kv =>
    if kv.1 = key then (kv.1, { kv.2 with targets := kv.2.targets ++ [t] }) else kv)

/-- One step of the `forEach` of lines 229-315: on a fresh key the
path/rewrite combination is validated (an invalid combination drops the
row, hence the whole group); then the row's target is appended. -/
def stepRow (ext : Ext) (m : List (String × ResourceGroup)) (row : Row) :
    List (String × ResourceGroup) :=
  let key := rowKey row
  match lookup m key with
  | some _ => pushTarget m key (targetOfRow row)
  | none =>
    if ext.validate row.path row.pathMatchType row.rewritePath row.rewritePathType then
      pushTarget (m ++ [(key, groupOfRow row)]) key (targetOfRow row)
    else m

/-- The whole `resourcesMap` (insertion-ordered, as a JS `Map` is). -/
def buildResourcesMap (ext : Ext) (rows : List Row) : List (String × ResourceGroup) :=
  rows.foldl (stepRow ext) []

/-! ### Availability evaluator and backend filters -/

/-- Lines 366-368 and 676-678 and 800-802: is any target's site online? -/
def anySitesOnline (ts : List TargetWithSite) : Bool :=
  ts.any (fun t => t.site.online)

/-- The eligibility predicate of `availableServers` (lines 362-378): note
that a site type other than local/wireguard/newt falls to `return false`. -/
def availEligible (ts : List TargetWithSite) (t : TargetWithSite) : Bool :=
  if !t.enabled then false
  else if anySitesOnline ts && !t.site.online then false
  else if t.site.type = "local" || t.site.type = "wireguard" then
    truthyS t.ip && truthyN t.port && truthyS t.method
  else if t.site.type = "newt" then
    truthyN t.internalPort && truthyS t.method && truthyS t.site.subnet
  else false

/-- The `availableServers` list (line 362): the healthy targets for maintenance logic. -/
def availableServers (ts : List TargetWithSite) : List TargetWithSite :=
  ts.filter (availEligible ts)

/-- The HTTP backend-list filter (lines 682-713): same field checks as
`availEligible`, except that an unrecognized site type falls through to
`return true`. -/
def httpBackendKeep (ts : List TargetWithSite) (t : TargetWithSite) : Bool :=
  if !t.enabled then false
  else if anySitesOnline ts && !t.site.online then false
  else if t.site.type = "local" || t.site.type = "wireguard" then
    if !truthyS t.ip || !truthyN t.port || !truthyS t.method then false else true
  else if t.site.type = "newt" then
    if !truthyN t.internalPort || !truthyS t.method || !truthyS t.site.subnet then false
    else true
  else true

/-- The non-HTTP backend-list filter (lines 805-831): like `httpBackendKeep`
but without any `method` requirement. -/
def rawBackendKeep (ts : List TargetWithSite) (t : TargetWithSite) : Bool :=
  if !t.enabled then false
  else if anySitesOnline ts && !t.site.online then false
  else if t.site.type = "local" || t.site.type = "wireguard" then
    if !truthyS t.ip || !truthyN t.port then false else true
  else if t.site.type = "newt" then
    if !truthyN t.internalPort || !truthyS t.site.subnet then false else true
  else true

/-- The HTTP endpoint map step (lines 714-729): `scheme://ip:port` for
local/wireguard, `scheme://subnet-network:internalPort` for newt, and
`undefined` (here `none`) for any other site type. -/
def httpEndpoint (t : TargetWithSite) : Option String :=
  if t.site.type = "local" || t.site.type = "wireguard" then
    some ((t.method.getD "") ++ "://" ++ (t.ip.getD "") ++ ":" ++ toString (t.port.getD 0))
  else if t.site.type = "newt" then
    some ((t.method.getD "") ++ "://" ++ ((jsSplit '/' (t.site.subnet.getD "")).headD "")
      ++ ":" ++ toString (t.internalPort.getD 0))
  else none

/-- The non-HTTP endpoint map step (lines 832-847): bare `host:port`. -/
def rawEndpoint (t : TargetWithSite) : Option String :=
  if t.site.type = "local" || t.site.type = "wireguard" then
    some ((t.ip.getD "") ++ ":" ++ toString (t.port.getD 0))
  else if t.site.type = "newt" then
    some (((jsSplit '/' (t.site.subnet.getD "")).headD "")
      ++ ":" ++ toString (t.internalPort.getD 0))
  else none

/-- The predicate `t => t && v && t.url === v.url` of line 734: both
entries defined and carrying the same url. -/
def urlPred (v t : Option String) : Bool := t.isSome && v.isSome && t == v

/-- The indexed duplicate filter of lines 731-737, exactly as written:
entry `v` at index `i` is kept iff
`a.findIndex(t => t && v && t.url === v.url) === i`. -/
def dedupGo (a : List (Option String)) : List (Option String) → Nat → List (Option String)
  | [], _ => []
  | v :: rest, i =>
    (if jsFindIndex (urlPred v) a = (i : Int) then [v] else []) ++ dedupGo a rest (i + 1)

/-- The whole-array `filter((v, i, a) => a.findIndex(...) === i)` of line 731. -/
def dedupServers (a : List (Option String)) : List (Option String) :=
  dedupGo a a 0

/-- The emitted HTTP server list (lines 669-737): filter, map, dedup. -/
def httpServers (ts : List TargetWithSite) : List (Option String) :=
  dedupServers ((ts.filter (httpBackendKeep ts)).map httpEndpoint)

/-- The emitted non-HTTP server list (lines 798-847): filter, map — the
source applies NO duplicate filter on this branch. -/
def rawServers (ts : List TargetWithSite) : List (Option String) :=
  (ts.filter (rawBackendKeep ts)).map rawEndpoint

/-! ### TLS policy (lines 403-419 maintenance path; lines 453-502 normal path) -/

/-- A TLS block: resolver name and the optional wildcard SAN main domain. -/
structure TlsBlock where
  certResolver : String
  domains : Option String
deriving DecidableEq

/-- The maintenance-path wildcard (lines 408-411): when the resource has a
subdomain, drop the leftmost label and add `*.`; else the full domain. -/
def maintWildcard (subdomain : Bool) (fd : String) : String :=
  if subdomain then "*." ++ String.intercalate "." ((jsSplit '.' fd).drop 1)
  else fd

/-- The normal-path wildcard (lines 453-463): two or fewer labels wildcard
the whole domain, otherwise drop the leftmost label; a resource without a
subdomain then overrides the result with the full domain. -/
def normalWildcard (subdomain : Bool) (fd : String) : String :=
  let domainParts := jsSplit '.' fd
  let w :=
    if domainParts.length ≤ 2 then "*." ++ String.intercalate "." domainParts
    else "*." ++ String.intercalate "." (domainParts.drop 1)
  if !subdomain then fd else w

/-- The TLS block built on the maintenance path (lines 413-419):
`certResolver` is `domainCertResolver?.trim() || global`, and the wildcard
SAN list is attached when `preferWildcardCert ?? global` holds. -/
def maintTls (cfg : Cfg) (subdomain : Bool) (fd : String)
    (dcr : Option String) (pwc : Option Bool) : TlsBlock :=
  { certResolver := jsOrStr (dcr.map jsTrim) cfg.cert_resolver
    domains :=
      if pwc.getD cfg.prefer_wildcard_cert then some (maintWildcard subdomain fd)
      else none }

/-- The TLS block built on the normal path (lines 465-502): the resolver is
`domainCertResolver.trim()` when `domainCertResolver` is truthy, else the
global default; the wildcard preference is the resource override when it is
neither `undefined` nor `null`, else the global default. -/
def normalTls (cfg : Cfg) (subdomain : Bool) (fd : String)
    (dcr : Option String) (pwc : Option Bool) : TlsBlock :=
  { certResolver :=
      match dcr with
      | some s => if s ≠ "" then jsTrim s else cfg.cert_resolver
      | none => cfg.cert_resolver
    domains :=
      if (match pwc with | some b => b | none => cfg.prefer_wildcard_cert)
      then some (normalWildcard subdomain fd)
      else none }

/-! ### Rule and priority builder (lines 601-640) -/

/-- The router priority (lines 604-623): a truthy override different from
100 is used verbatim; otherwise base 100 plus 10 when both path and match
type are truthy, plus 5/3/2 for exact/prefix/regex, with a raw path of
exactly `/` forced to 1. -/
def computePriority (p : Int) (path : Option String) (mt : Option String) : Int :=
  if p ≠ 0 ∧ p ≠ 100 then p
  else
    if truthyS path ∧ truthyS mt then
      let withBonus : Int := 100 + 10 +
        (if mt = some "exact" then 5
         else if mt = some "prefix" then 3
         else if mt = some "regex" then 2
         else 0)
      if path = some "/" then 1 else withBonus
    else 100

/-- The host-equality half of the rule (line 602). -/
def hostRule (fd : String) : String := "Host(`" ++ fd ++ "`)"

/-- The full match rule (lines 625-640): host plus a path clause whose shape
depends on the match type; exact/prefix paths are normalized to start with
`/`, the regex pattern is used raw. -/
def buildRule (fd : String) (path : Option String) (mt : Option String) : String :=
  let rule := hostRule fd
  if truthyS path ∧ truthyS mt then
    let p := path.getD ""
    let p2 := if startsWithSlash p then p else "/" ++ p
    if mt = some "exact" then rule ++ " && Path(`" ++ p2 ++ "`)"
    else if mt = some "prefix" then rule ++ " && PathPrefix(`" ++ p2 ++ "`)"
    else if mt = some "regex" then rule ++ " && PathRegexp(`" ++ p ++ "`)"
    else rule
  else rule

/-! ### Output document (schema of section 6 of the design) -/

/-- An HTTP router entry. -/
structure HttpRouter where
  entryPoints : List String
  middlewares : Option (List String)
  service : String
  rule : String
  priority : Int
  tls : Option TlsBlock
deriving DecidableEq

/-- An HTTP service entry; `sticky` holds the cookie's `secure` flag. -/
structure HttpService where
  servers : List (Option String)
  passHostHeader : Bool
  sticky : Option Bool
  serversTransport : Option String
deriving DecidableEq

/-- The `http` sub-document.  `middlewares` records the names defined (the
bodies matter to no claim); `routers`/`services`/`serversTransports` are
`none` until the source lazily initializes them. -/
structure HttpSection where
  middlewares : List String
  routers : Option (List (String × HttpRouter))
  services : Option (List (String × HttpService))
  serversTransports : Option (List (String × String))
deriving DecidableEq

/-- A TCP/UDP router entry. -/
structure RawRouter where
  entryPoints : List String
  service : String
  rule : Option String
deriving DecidableEq

/-- A TCP/UDP service entry; `stickyIp` marks the source-IP affinity block. -/
structure RawService where
  servers : List (Option String)
  serversTransport : Option String
  stickyIp : Bool
deriving DecidableEq

/-- A per-protocol (tcp/udp/...) sub-document. -/
structure RawSection where
  routers : List (String × RawRouter)
  services : List (String × RawService)
deriving DecidableEq

/-- The whole output document; `http := none` and `raw := []` is the empty
object `{}` of line 319. -/
structure ConfigOutput where
  http : Option HttpSection
  raw : List (String × RawSection)
deriving DecidableEq

/-- The empty object returned when no groups survive aggregation. -/
def emptyConfig : ConfigOutput := { http := none, raw := [] }

def redirectHttpsMiddlewareName : String := "redirect-to-https"

def badgerMiddlewareName : String := "badger"

/-- The initial document of lines 322-332: only the https-redirect
middleware is defined. -/
def initialConfig : ConfigOutput :=
  { http := some
      { middlewares := [redirectHttpsMiddlewareName]
        routers := none
        services := none
        serversTransports := none }
    raw := [] }

/-- Insert a middleware name: object-key assignment keeps an existing key's
position, so the name list gains `n` only when it is new. -/
def upsertName (l : List String) (n : String) : List String :=
  if n ∈ l then l else l ++ [n]

/-! ### Maintenance decision (lines 380-397) -/

/-- The `hasHealthyServers` flag (line 380). -/
def hasHealthyServers (ts : List TargetWithSite) : Bool :=
  decide (0 < (availableServers ts).length)

/-- The `showMaintenancePage` decision (lines 382-397): forced mode always shows the
page; automatic mode shows it exactly when no healthy server exists;
disabled (or an unknown mode) never shows it. -/
def showMaintenancePage (r : ResourceGroup) : Bool :=
  if r.maintenanceModeEnabled then
    if r.maintenanceModeType = some "forced" then true
    else if r.maintenanceModeType = some "automatic" then !hasHealthyServers r.targets
    else false
  else false

/-! ### Document assembler (lines 335-868) -/

/-- The maintenance service entry (lines 423-428): one static backend at
the configured maintenance host and port. -/
def maintenanceServiceEntry (cfg : Cfg) : HttpService :=
  { servers := [some ("http://" ++ jsOrStr cfg.maintenance_host "pangolin" ++ ":" ++
      toString (jsOrNat cfg.maintenance_port 8888))]
    passHostHeader := true
    sticky := none
    serversTransport := none }

/-- The maintenance router entry (lines 432-438): host-only rule, fixed
priority 2000, TLS only under SSL. -/
def maintenanceRouterEntry (cfg : Cfg) (key : String) (r : ResourceGroup) : HttpRouter :=
  { entryPoints := [if r.ssl then cfg.https_entrypoint else cfg.http_entrypoint]
    middlewares := none
    service := key ++ "-maintenance-service"
    rule := hostRule (r.fullDomain.getD "")
    priority := 2000
    tls := if r.ssl then
        some (maintTls cfg r.subdomain (r.fullDomain.getD "") r.domainCertResolver
          r.preferWildcardCert)
      else none }

/-- The maintenance HTTPS-redirect twin (lines 440-448). -/
def maintenanceRedirectEntry (cfg : Cfg) (key : String) (r : ResourceGroup) : HttpRouter :=
  { entryPoints := [cfg.http_entrypoint]
    middlewares := some [redirectHttpsMiddlewareName]
    service := key ++ "-maintenance-service"
    rule := hostRule (r.fullDomain.getD "")
    priority := 2000
    tls := none }

/-- The maintenance emission (lines 399-450): one static-backend service,
one host-only router at priority 2000, plus the redirect twin under SSL. -/
def maintenanceApply (cfg : Cfg) (key : String) (r : ResourceGroup)
    (sec : HttpSection) : HttpSection :=
  let services1 := upsert (sec.services.getD []) (key ++ "-maintenance-service")
    (maintenanceServiceEntry cfg)
  let routers1 := upsert (sec.routers.getD []) (key ++ "-maintenance-router")
    (maintenanceRouterEntry cfg key r)
  let routers2 :=
    if r.ssl then
      upsert routers1 (key ++ "-maintenance-router" ++ "-redirect")
        (maintenanceRedirectEntry cfg key r)
    else routers1
  { sec with routers := some routers2, services := some services1 }

/-- The path-rewrite middleware result (lines 512-559): the names the
collaborator defines, and the names appended to the router chain; a
`none` from the collaborator models a thrown exception, in which case the
route is still emitted with no rewrite middleware at all. -/
def rewriteOf (ext : Ext) (key : String) (r : ResourceGroup) : List String × List String :=
  if r.rewritePath ≠ none ∧ r.path ≠ none ∧
      truthyS r.pathMatchType ∧ truthyS r.rewritePathType then
    match ext.rewriteFn ("rewrite-r" ++ toString r.resourceId ++ "-" ++ key)
        (r.path.getD "") (r.pathMatchType.getD "")
        (r.rewritePath.getD "") (r.rewritePathType.getD "") with
    | some res =>
      (res.middlewares,
       match res.chain with
       | some c => c
       | none => ["rewrite-r" ++ toString r.resourceId ++ "-" ++ key])
    | none => ([], [])
  else ([], [])

/-- The merged custom-header object (lines 561-599); a parse failure is an
empty header list; the explicit Host override is applied last. -/
def headersObjOf (ext : Ext) (r : ResourceGroup) : List (String × String) :=
  if truthyS r.headers || truthyS r.setHostHeader then
    let base := if truthyS r.headers then (ext.parseHeaders (r.headers.getD "")).getD [] else []
    let obj := base.foldl (fun m kv => upsert m kv.1 kv.2) []
    if truthyS r.setHostHeader then upsert obj "Host" (r.setHostHeader.getD "") else obj
  else []

/-- Whether the headers middleware is emitted (line 587): some header
field configured and the merged object non-empty. -/
def emitHeadersOf (ext : Ext) (r : ResourceGroup) : Bool :=
  (truthyS r.headers || truthyS r.setHostHeader) && !(headersObjOf ext r).isEmpty

/-- The router middleware chain (lines 504-599): badger, the configured
additional middlewares, the rewrite chain, the headers middleware. -/
def normalRouterMiddlewares (ext : Ext) (cfg : Cfg) (key : String)
    (r : ResourceGroup) : List String :=
  [badgerMiddlewareName] ++ cfg.additional_middlewares.getD [] ++ (rewriteOf ext key r).2 ++
    (if emitHeadersOf ext r then [key ++ "-headers-middleware"] else [])

/-- The normal router entry (lines 642-653). -/
def normalRouterEntry (ext : Ext) (cfg : Cfg) (key : String) (r : ResourceGroup) : HttpRouter :=
  { entryPoints := [if r.ssl then cfg.https_entrypoint else cfg.http_entrypoint]
    middlewares := some (normalRouterMiddlewares ext cfg key r)
    service := key ++ "-" ++ r.name ++ "-service"
    rule := buildRule (r.fullDomain.getD "") r.path r.pathMatchType
    priority := computePriority r.priority r.path r.pathMatchType
    tls := if r.ssl then
        some (normalTls cfg r.subdomain (r.fullDomain.getD "") r.domainCertResolver
          r.preferWildcardCert)
      else none }

/-- The normal HTTPS-redirect twin (lines 655-665). -/
def normalRedirectEntry (cfg : Cfg) (key : String) (r : ResourceGroup) : HttpRouter :=
  { entryPoints := [cfg.http_entrypoint]
    middlewares := some [redirectHttpsMiddlewareName]
    service := key ++ "-" ++ r.name ++ "-service"
    rule := buildRule (r.fullDomain.getD "") r.path r.pathMatchType
    priority := computePriority r.priority r.path r.pathMatchType
    tls := none }

/-- The normal service entry (lines 667-767): filtered, mapped,
deduplicated servers, optional sticky cookie, optional named transport. -/
def normalServiceEntry (key : String) (r : ResourceGroup) : HttpService :=
  { servers := httpServers r.targets
    passHostHeader := false
    sticky := if r.stickySession then some r.ssl else none
    serversTransport := if truthyS r.tlsServerName then some (key ++ "-transport") else none }

/-- The normal HTTP emission (lines 453-767): TLS, middleware chain,
rule/priority, router (+ redirect twin), service, optional transport. -/
def normalApply (ext : Ext) (cfg : Cfg) (key : String) (r : ResourceGroup)
    (sec : HttpSection) : HttpSection :=
  let middlewares1 := (rewriteOf ext key r).1.foldl upsertName sec.middlewares
  let middlewares2 :=
    if emitHeadersOf ext r then upsertName middlewares1 (key ++ "-headers-middleware")
    else middlewares1
  let routers1 := upsert (sec.routers.getD []) (key ++ "-" ++ r.name ++ "-router")
    (normalRouterEntry ext cfg key r)
  let routers2 :=
    if r.ssl then
      upsert routers1 (key ++ "-" ++ r.name ++ "-router" ++ "-redirect")
        (normalRedirectEntry cfg key r)
    else routers1
  let services1 := upsert (sec.services.getD []) (key ++ "-" ++ r.name ++ "-service")
    (normalServiceEntry key r)
  let transports :=
    if truthyS r.tlsServerName then
      some (upsert (sec.serversTransports.getD []) (key ++ "-transport")
        (r.tlsServerName.getD ""))
    else sec.serversTransports
  { middlewares := middlewares2
    routers := some routers2
    services := some services1
    serversTransports := transports }

/-- The HTTP side of the loop body (lines 348-767): skip on a missing
domain, lazily initialize routers/services, then run the maintenance
decision and short-circuit, or emit the normal route. -/
def emitHttp (ext : Ext) (cfg : Cfg) (key : String) (r : ResourceGroup)
    (out : ConfigOutput) : ConfigOutput :=
  if !truthyN r.domainId || !truthyS r.fullDomain then out
  else
    let sec0 := out.http.getD
      { middlewares := [], routers := none, services := none, serversTransports := none }
    let sec := { sec0 with
      routers := some (sec0.routers.getD [])
      services := some (sec0.services.getD []) }
    if showMaintenancePage r then { out with http := some (maintenanceApply cfg key r sec) }
    else { out with http := some (normalApply ext cfg key r sec) }

/-- The non-HTTP side of the loop body (lines 768-866). -/
def emitRaw (cfg : Cfg) (key : String) (r : ResourceGroup)
    (out : ConfigOutput) : ConfigOutput :=
  if !r.enableProxy || !truthyN r.proxyPort then out
  else
    let protocol := jsToLower r.protocol
    let port := r.proxyPort.getD 0
    let routerName := key ++ "-" ++ r.name ++ "-router"
    let serviceName := key ++ "-" ++ r.name ++ "-service"
    let sec := (lookup out.raw protocol).getD { routers := [], services := [] }
    let routers1 := upsert sec.routers routerName
      { entryPoints := [protocol ++ "-" ++ toString port]
        service := serviceName
        rule := if protocol = "tcp" then some "HostSNI(`*`)" else none }
    let services1 := upsert sec.services serviceName
      { servers := rawServers r.targets
        serversTransport :=
          if r.proxyProtocol && protocol = "tcp" then
            some (cfg.ppTransportPfx ++
              toString (if r.proxyProtocolVersion ≠ 0 then r.proxyProtocolVersion else 1) ++
              "@file")
          else none
        stickyIp := r.stickySession }
    { out with raw := upsert out.raw protocol { routers := routers1, services := services1 } }

/-- The loop body for one group (lines 335-348 plus the two branches). -/
def emitGroup (ext : Ext) (cfg : Cfg) (key : String) (r : ResourceGroup)
    (out : ConfigOutput) : ConfigOutput :=
  if !r.enabled then out
  else if r.http then emitHttp ext cfg key r out
  else emitRaw cfg key r out

/-- The whole synthesizer (lines 125-869): aggregate, return `{}` when no
group survives, otherwise run the assembler loop over all groups. -/
def getTraefikConfig (ext : Ext) (cfg : Cfg) (rows : List Row) : ConfigOutput :=
  let m := buildResourcesMap ext rows
  if m.isEmpty then emptyConfig
  else m.foldl (fun out kv => emitGroup ext cfg kv.1 kv.2 out) initialConfig

/-! ### Statement-side definitions used by the claims -/

/-- Predicate `httpBackendKeep` with the site-online preference clause removed; used
to state that with no online site nothing is excluded for being offline. -/
def httpFieldKeep (t : TargetWithSite) : Bool :=
  if !t.enabled then false
  else if t.site.type = "local" || t.site.type = "wireguard" then
    if !truthyS t.ip || !truthyN t.port || !truthyS t.method then false else true
  else if t.site.type = "newt" then
    if !truthyN t.internalPort || !truthyS t.method || !truthyS t.site.subnet then false
    else true
  else true

/-- Predicate `rawBackendKeep` with the site-online preference clause removed. -/
def rawFieldKeep (t : TargetWithSite) : Bool :=
  if !t.enabled then false
  else if t.site.type = "local" || t.site.type = "wireguard" then
    if !truthyS t.ip || !truthyN t.port then false else true
  else if t.site.type = "newt" then
    if !truthyN t.internalPort || !truthyS t.site.subnet then false else true
  else true

/-- The HTTP routers emitted for one group processed against the freshly
initialized document. -/
def emittedRouters (ext : Ext) (cfg : Cfg) (key : String) (r : ResourceGroup) :
    List (String × HttpRouter) :=
  ((emitGroup ext cfg key r initialConfig).http.getD
    { middlewares := [], routers := none, services := none,
      serversTransports := none }).routers.getD []

/-- The routers list contains the group's maintenance router (host-only
rule, priority 2000, pointing at the maintenance service) and nothing
besides the maintenance router and its redirect twin. -/
def maintenanceEmitted (key : String) (r : ResourceGroup)
    (routers : List (String × HttpRouter)) : Prop :=
  (∃ R, lookup routers (key ++ "-maintenance-router") = some R ∧
    R.rule = hostRule (r.fullDomain.getD "") ∧ R.priority = 2000 ∧
    R.service = key ++ "-maintenance-service") ∧
  ∀ n, (lookup routers n).isSome = true →
    n = key ++ "-maintenance-router" ∨ n = key ++ "-maintenance-router" ++ "-redirect"

/-- The routers list contains the group's normal router (built rule and
priority, pointing at the group's service) and nothing besides the normal
router and its redirect twin. -/
def normalEmitted (key : String) (r : ResourceGroup)
    (routers : List (String × HttpRouter)) : Prop :=
  (∃ R, lookup routers (key ++ "-" ++ r.name ++ "-router") = some R ∧
    R.rule = buildRule (r.fullDomain.getD "") r.path r.pathMatchType ∧
    R.priority = computePriority r.priority r.path r.pathMatchType ∧
    R.service = key ++ "-" ++ r.name ++ "-service") ∧
  ∀ n, (lookup routers n).isSome = true →
    n = key ++ "-" ++ r.name ++ "-router" ∨
    n = key ++ "-" ++ r.name ++ "-router" ++ "-redirect"

/-! ### Concrete example inputs for counterexamples and witnesses -/

/-- External collaborators instantiated trivially: every path/rewrite
combination valid, rewrite generation throwing, header parsing failing
(the examples below carry no rewrite or header configuration). -/
def exExt : Ext :=
  { validate := fun _ _ _ _ => true
    rewriteFn := fun _ _ _ _ _ => none
    parseHeaders := fun _ => none }

/-- A concrete process configuration. -/
def exCfg : Cfg :=
  { http_entrypoint := "web"
    https_entrypoint := "websecure"
    cert_resolver := "letsencrypt"
    prefer_wildcard_cert := false
    maintenance_port := none
    maintenance_host := none
    additional_middlewares := none
    ppTransportPfx := "pp" }

/-- Configuration `exCfg` with the process-wide wildcard preference switched on. -/
def exCfgW : Cfg := { exCfg with prefer_wildcard_cert := true }

/-- One healthy enabled HTTP row on a local online site (the worked example
of the design document: `example.com`, target `10.0.0.5:8080`). -/
def exRow : Row :=
  { resourceId := 1
    resourceName := "myres"
    fullDomain := some "example.com"
    ssl := true
    http := true
    proxyPort := none
    protocol := "tcp"
    subdomain := false
    domainId := some 5
    enabled := true
    stickySession := false
    tlsServerName := none
    setHostHeader := none
    enableProxy := false
    headers := none
    proxyProtocol := false
    proxyProtocolVersion := none
    maintenanceModeEnabled := false
    maintenanceModeType := none
    targetId := 10
    targetEnabled := true
    ip := some "10.0.0.5"
    method := some "http"
    port := some 8080
    internalPort := none
    path := none
    pathMatchType := none
    rewritePath := none
    rewritePathType := none
    priority := none
    siteId := 3
    siteType := "local"
    siteOnline := true
    subnet := none
    exitNodeId := some 2
    domainCertResolver := none }

/-- A target on a site of an unrecognized type, with every field populated. -/
def exC2target : TargetWithSite :=
  { resourceId := 1
    targetId := 1
    ip := some "10.0.0.5"
    method := some "http"
    port := some 80
    internalPort := some 8080
    enabled := true
    site :=
      { siteId := 1
        type := "docker"
        subnet := some "10.0.0.0/24"
        exitNodeId := none
        online := true } }

/-- A fully eligible target on a local online site. -/
def exC5target : TargetWithSite :=
  { resourceId := 1
    targetId := 1
    ip := some "10.0.0.5"
    method := some "http"
    port := some 80
    internalPort := none
    enabled := true
    site :=
      { siteId := 1
        type := "local"
        subnet := none
        exitNodeId := none
        online := true } }

/-- A second target resolving to the same endpoint string. -/
def exC5target2 : TargetWithSite := { exC5target with targetId := 2 }

/-- Row with path `a`, match type `prefix`, no rewrite. -/
def exR8a : Row :=
  { exRow with path := some "a", pathMatchType := some "prefix" }

/-- Row with path `a`, no match type, rewrite path `prefix` — a different
path/rewrite configuration whose computed key collides with `exR8a`. -/
def exR8b : Row :=
  { exRow with path := some "a", rewritePath := some "prefix" }

/-- An HTTP row whose resource has no domain: its group survives
aggregation but is skipped by the assembler. -/
def exR9 : Row := { exRow with fullDomain := none, domainId := none }

/-- An eligible target whose site is offline. -/
def exC3off : TargetWithSite :=
  { exC5target with
    targetId := 3
    site := { exC5target.site with siteId := 2, online := false } }

/-- The `http` section as it stands when the loop body reaches a group that
passes the domain check: redirect middleware defined, routers and services
initialized to empty. -/
def initSec : HttpSection :=
  { middlewares := [redirectHttpsMiddlewareName]
    routers := some []
    services := some []
    serversTransports := none }

/-- The worked-example group forced into maintenance mode. -/
def exGroupForced : ResourceGroup :=
  { groupOfRow
      { exRow with maintenanceModeEnabled := true, maintenanceModeType := some "forced" } with
    targets := [targetOfRow exRow] }

/-- A TCP row (proxied non-HTTP resource). -/
def exRowTcp : Row :=
  { exRow with
    resourceId := 2
    http := false
    enableProxy := true
    proxyPort := some 5432
    protocol := "TCP" }

/-! ### Helper lemmas -/

theorem self_ne_append (s t : String) (h : t.length ≠ 0) : s ≠ s ++ t := by
  intro heq
  have hlen := congrArg String.length heq
  rw [String.length_append] at hlen
  omega

theorem lookup_upsert_self {α : Type} (l : List (String × α)) (k : String) (v : α) :
    lookup (upsert l k v) k = some v := by
  induction l with
  | nil => simp [upsert, lookup]
  | cons kv rest ih =>
    obtain ⟨k0, v0⟩ := kv
    by_cases h : k0 = k
    · simp [upsert, h, lookup]
    · simp [upsert, h, lookup, ih]

theorem lookup_isSome_iff {α : Type} (l : List (String × α)) (n : String) :
    (lookup l n).isSome = true ↔ n ∈ l.map Prod.fst := by
  induction l with
  | nil => simp [lookup]
  | cons kv rest ih =>
    obtain ⟨k0, v0⟩ := kv
    by_cases h : k0 = n
    · simp [lookup, h]
    · simp [lookup, h, ih, Ne.symm h]

/-! ### Claim C2 -/

/-- Claim C2 counterexample: a target on a site of unrecognized type
`docker` (enabled, online, all fields populated) is rejected by the
availability predicate but accepted by the HTTP backend-list filter, so
the two predicates are not extensionally equal. -/
theorem c2_counterexample :
    availEligible [exC2target] exC2target = false ∧
    httpBackendKeep [exC2target] exC2target = true ∧
    exC2target ∈ [exC2target] := by decide

/-- Claim C2 (amended): the availability predicate and the HTTP
backend-list filter agree on every target whose site type is local,
wireguard or newt; they differ exactly on other site types, which
availability rejects and the backend filter keeps. -/
theorem c2_availability_refines_backend (ts : List TargetWithSite) (t : TargetWithSite)
    (h : t.site.type = "local" ∨ t.site.type = "wireguard" ∨ t.site.type = "newt") :
    availEligible ts t = httpBackendKeep ts t := by
  unfold availEligible httpBackendKeep
  rcases h with h | h | h <;> rw [h] <;>
    cases t.enabled <;> cases hon : anySitesOnline ts <;> cases t.site.online <;>
      simp

/-- Claim C2 witness: the amended equivalence applied to the concrete
local-site target. -/
theorem c2_witness :
    availEligible [exC5target] exC5target = httpBackendKeep [exC5target] exC5target :=
  c2_availability_refines_backend [exC5target] exC5target (Or.inl rfl)

/-! ### Claim C3 -/

/-- Claim C3: in both the HTTP and the non-HTTP backend filters, when some
site of the group is online every offline-site target is excluded from the
backend list, and when no site is online the filters reduce to the pure
field checks, so no target is excluded on account of being offline. -/
theorem c3_site_online_fallback (ts : List TargetWithSite) (t : TargetWithSite) :
    (anySitesOnline ts = true → t.site.online = false →
      httpBackendKeep ts t = false ∧ rawBackendKeep ts t = false ∧
      t ∉ ts.filter (httpBackendKeep ts) ∧ t ∉ ts.filter (rawBackendKeep ts)) ∧
    (anySitesOnline ts = false →
      httpBackendKeep ts t = httpFieldKeep t ∧ rawBackendKeep ts t = rawFieldKeep t) := by
  constructor
  · intro hon hoff
    have hhttp : httpBackendKeep ts t = false := by
      unfold httpBackendKeep
      rw [hon, hoff]
      cases t.enabled <;> simp
    have hraw : rawBackendKeep ts t = false := by
      unfold rawBackendKeep
      rw [hon, hoff]
      cases t.enabled <;> simp
    refine ⟨hhttp, hraw, ?_, ?_⟩
    · simp [List.mem_filter, hhttp]
    · simp [List.mem_filter, hraw]
  · intro hoff
    constructor
    · unfold httpBackendKeep httpFieldKeep
      rw [hoff]
      simp
    · unfold rawBackendKeep rawFieldKeep
      rw [hoff]
      simp

/-- Claim C3 witness: the theorem applied to a concrete two-target group
with one online and one offline site excludes the offline one. -/
theorem c3_witness :
    httpBackendKeep [exC5target, exC3off] exC3off = false :=
  ((c3_site_online_fallback [exC5target, exC3off] exC3off).1
    (by decide) (by decide)).1

/-! ### Properties of the duplicate filter -/

theorem jsFindIdx_eq_none_iff {α : Type} (p : α → Bool) (l : List α) :
    jsFindIdx p l = none ↔ ∀ x ∈ l, p x = false := by
  induction l with
  | nil => simp [jsFindIdx]
  | cons x xs ih =>
    by_cases h : p x
    · simp [jsFindIdx, h]
    · simp [jsFindIdx, h, Option.map_eq_none', ih]

theorem jsFindIdx_some {α : Type} (p : α → Bool) (l : List α) (k : Nat)
    (h : jsFindIdx p l = some k) : ∃ w, l[k]? = some w ∧ p w = true := by
  induction l generalizing k with
  | nil => simp [jsFindIdx] at h
  | cons x xs ih =>
    by_cases hp : p x
    · simp [jsFindIdx, hp] at h
      subst h
      exact ⟨x, by simp, hp⟩
    · simp [jsFindIdx, hp] at h
      cases hfx : jsFindIdx p xs with
      | none => rw [hfx] at h; simp at h
      | some k2 =>
        rw [hfx] at h
        simp at h
        obtain ⟨w, hw, hpw⟩ := ih k2 hfx
        subst h
        exact ⟨w, by simpa using hw, hpw⟩

theorem jsFindIdx_isSome_of_mem {α : Type} (p : α → Bool) (l : List α) (w : α)
    (hmem : w ∈ l) (hp : p w = true) : ∃ k, jsFindIdx p l = some k := by
  induction l with
  | nil => simp at hmem
  | cons x xs ih =>
    by_cases hx : p x
    · exact ⟨0, by simp [jsFindIdx, hx]⟩
    · rcases List.mem_cons.mp hmem with rfl | hmem2
      · exact absurd hp hx
      · obtain ⟨k, hk⟩ := ih hmem2
        exact ⟨k + 1, by simp [jsFindIdx, hx, hk]⟩

theorem jsFindIndex_eq_coe_iff {α : Type} (p : α → Bool) (l : List α) (i : Nat) :
    (jsFindIndex p l = (i : Int)) ↔ jsFindIdx p l = some i := by
  unfold jsFindIndex
  cases h : jsFindIdx p l with
  | none =>
    constructor
    · intro hh
      exfalso
      have hneg : (-1 : Int) = (i : Int) := hh
      omega
    · intro hh
      exact absurd hh (by simp)
  | some k =>
    constructor
    · intro hh
      have hki : (k : Int) = (i : Int) := hh
      have hki2 : k = i := by exact_mod_cast hki
      rw [hki2]
    · intro hh
      have hki : k = i := Option.some.inj hh
      show (k : Int) = (i : Int)
      exact_mod_cast hki

theorem urlPred_self (u : String) : urlPred (some u) (some u) = true := by
  simp [urlPred]

theorem eq_of_urlPred (u : String) (w : Option String)
    (h : urlPred (some u) w = true) : w = some u := by
  cases w with
  | none => simp [urlPred] at h
  | some s =>
    simp [urlPred] at h
    rw [h]

theorem dedupGo_sublist (a : List (Option String)) :
    ∀ (l : List (Option String)) (i : Nat), (dedupGo a l i).Sublist l := by
  intro l
  induction l with
  | nil => intro i; simp [dedupGo]
  | cons v rest ih =>
    intro i
    unfold dedupGo
    by_cases h : jsFindIndex (urlPred v) a = (i : Int)
    · simpa [h] using (ih (i + 1)).cons₂ v
    · simpa [h] using (ih (i + 1)).cons v

theorem dedupGo_count_zero (a : List (Option String)) (u : String) :
    ∀ (l : List (Option String)) (i : Nat),
      (jsFindIdx (urlPred (some u)) a = none ∨
        ∃ k, jsFindIdx (urlPred (some u)) a = some k ∧ k < i) →
      (dedupGo a l i).count (some u) = 0 := by
  intro l
  induction l with
  | nil => intro i _; simp [dedupGo]
  | cons v rest ih =>
    intro i hk
    unfold dedupGo
    rw [List.count_append]
    have hnext : jsFindIdx (urlPred (some u)) a = none ∨
        ∃ k, jsFindIdx (urlPred (some u)) a = some k ∧ k < i + 1 := by
      rcases hk with h | ⟨k, hk1, hk2⟩
      · exact Or.inl h
      · exact Or.inr ⟨k, hk1, by omega⟩
    rw [ih (i + 1) hnext]
    by_cases hc : jsFindIndex (urlPred v) a = (i : Int)
    · by_cases hv : v = some u
      · exfalso
        subst hv
        rw [jsFindIndex_eq_coe_iff] at hc
        rcases hk with h | ⟨k, hk1, hk2⟩
        · rw [h] at hc; simp at hc
        · rw [hk1] at hc
          have : k = i := by injection hc
          omega
      · simp [hc, List.count_cons, hv, Ne.symm hv]
    · simp [hc]

theorem dedupGo_count_le_one (a : List (Option String)) (u : String) :
    ∀ (l : List (Option String)) (i : Nat), (dedupGo a l i).count (some u) ≤ 1 := by
  intro l
  induction l with
  | nil => intro i; simp [dedupGo]
  | cons v rest ih =>
    intro i
    unfold dedupGo
    rw [List.count_append]
    by_cases hc : jsFindIndex (urlPred v) a = (i : Int)
    · by_cases hv : v = some u
      · subst hv
        have hcOpt := (jsFindIndex_eq_coe_iff (urlPred (some u)) a i).mp hc
        have hzero := dedupGo_count_zero a u rest (i + 1)
          (Or.inr ⟨i, hcOpt, by omega⟩)
        rw [hzero]
        simp [hc, List.count_cons]
      · have := ih (i + 1)
        simp [hc, List.count_cons, hv, Ne.symm hv]
        omega
    · have := ih (i + 1)
      simp [hc]
      omega

theorem dedupGo_mem (a : List (Option String)) (u : String) (k : Nat)
    (hk : jsFindIdx (urlPred (some u)) a = some k) :
    ∀ (l : List (Option String)) (i : Nat),
      a.drop i = l → i ≤ k → some u ∈ dedupGo a l i := by
  obtain ⟨w, hw, hpw⟩ := jsFindIdx_some _ _ _ hk
  have hwu : w = some u := eq_of_urlPred u w hpw
  subst hwu
  intro l
  induction l with
  | nil =>
    intro i hdrop hik
    exfalso
    have hnone : a[k]? = ([] : List (Option String))[k - i]? := by
      rw [← hdrop, List.getElem?_drop]
      congr 1
      omega
    rw [hw] at hnone
    simp at hnone
  | cons v rest ih =>
    intro i hdrop hik
    rcases Nat.lt_or_ge i k with hlt | hge
    · have hdrop2 : a.drop (i + 1) = rest := by
        rw [← List.tail_drop, hdrop]
        rfl
      have hmem := ih (i + 1) hdrop2 (by omega)
      unfold dedupGo
      exact List.mem_append_right _ hmem
    · have hik2 : i = k := by omega
      subst hik2
      have h0 : a[i]? = some v := by
        have hh : (a.drop i)[0]? = a[i + 0]? := List.getElem?_drop a i 0
        rw [hdrop] at hh
        simpa using hh.symm
      have hv : v = some u := by
        rw [h0] at hw
        exact Option.some.inj hw
      subst hv
      unfold dedupGo
      have hc : jsFindIndex (urlPred (some u)) a = (i : Int) :=
        (jsFindIndex_eq_coe_iff _ _ _).mpr hk
      simp [hc]

theorem dedupServers_sublist (a : List (Option String)) :
    (dedupServers a).Sublist a :=
  dedupGo_sublist a a 0

theorem dedupServers_count_le_one (a : List (Option String)) (u : String) :
    (dedupServers a).count (some u) ≤ 1 :=
  dedupGo_count_le_one a u a 0

theorem dedupServers_mem (a : List (Option String)) (u : String)
    (h : some u ∈ a) : some u ∈ dedupServers a := by
  obtain ⟨k, hk⟩ := jsFindIdx_isSome_of_mem (urlPred (some u)) a (some u) h (urlPred_self u)
  exact dedupGo_mem a u k hk a 0 (by simp) (Nat.zero_le k)

/-! ### Claim C4 -/

/-- Claim C4 counterexample: a declared priority override of 0 differs
from 100 yet is not used verbatim (the truthiness guard discards it), and
a group with path `/` does not get priority 1 when an override applies. -/
theorem c4_counterexample :
    (computePriority 0 none none = 100 ∧ (0 : Int) ≠ 100) ∧
    (computePriority 50 (some "/") (some "exact") = 50 ∧ (50 : Int) ≠ 1) := by
  decide

/-- Claim C4 (amended): a truthy (non-zero) override different from 100 is
used verbatim; with no effective override the priority is 100, plus 10
when both path and match type are truthy, plus 5/3/2 for
exact/prefix/regex, and a path of exactly `/` (with a truthy match type)
forces 1; hence exact 115 > 113 > 112 > 100 all else equal. -/
theorem c4_priority_formula (p : Int) (path mtype : String)
    (hpath : path ≠ "") (hroot : path ≠ "/") (hmt : mtype ≠ "") :
    (p ≠ 0 → p ≠ 100 →
      computePriority p (some path) (some mtype) = p ∧ computePriority p none none = p) ∧
    computePriority p (some "/") (some mtype) = (if p ≠ 0 ∧ p ≠ 100 then p else 1) ∧
    computePriority 100 (some path) (some "exact") = 115 ∧
    computePriority 100 (some path) (some "prefix") = 113 ∧
    computePriority 100 (some path) (some "regex") = 112 ∧
    computePriority 100 (some path) none = 100 ∧
    computePriority 0 (some path) (some "exact") = 115 := by
  refine ⟨?_, ?_, ?_, ?_, ?_, ?_, ?_⟩
  · intro h0 h100
    constructor <;> simp [computePriority, h0, h100]
  · by_cases h0 : p = 0
    · simp [computePriority, h0, truthyS, hmt]
    · by_cases h100 : p = 100
      · simp [computePriority, h0, h100, truthyS, hmt]
      · simp [computePriority, h0, h100]
  · simp [computePriority, truthyS, hpath, hroot]
  · simp [computePriority, truthyS, hpath, hroot]
  · simp [computePriority, truthyS, hpath, hroot]
  · simp [computePriority, truthyS]
  · simp [computePriority, truthyS, hpath, hroot]

/-- Claim C4 witness: the amended formula applied at a concrete path. -/
theorem c4_witness :
    computePriority 100 (some "api") (some "exact") = 115 :=
  (c4_priority_formula 7 "api" "exact" (by decide) (by decide) (by decide)).2.2.1

/-! ### Claim C5 -/

/-- Claim C5 counterexample: on the non-HTTP branch two eligible targets
resolving to the same endpoint string produce two entries — the source
applies no duplicate filter there. -/
theorem c5_counterexample :
    rawServers [exC5target, exC5target2] =
      [some "10.0.0.5:80", some "10.0.0.5:80"] ∧
    rawBackendKeep [exC5target, exC5target2] exC5target = true ∧
    rawBackendKeep [exC5target, exC5target2] exC5target2 = true ∧
    exC5target ≠ exC5target2 := by decide

/-- Claim C5 (amended): duplicate collapsing holds on the HTTP branch
only: an endpoint string reached by some eligible target appears exactly
once in the HTTP server list, which is a sublist of the mapped endpoint
sequence (first-seen order); the non-HTTP branch applies no
deduplication — it emits one entry per kept target. -/
theorem c5_http_dedup_only (ts : List TargetWithSite) (u : String)
    (hmem : some u ∈ (ts.filter (httpBackendKeep ts)).map httpEndpoint) :
    (httpServers ts).count (some u) = 1 ∧
    (httpServers ts).Sublist ((ts.filter (httpBackendKeep ts)).map httpEndpoint) ∧
    (rawServers ts).length = (ts.filter (rawBackendKeep ts)).length := by
  refine ⟨?_, dedupServers_sublist _, by simp [rawServers]⟩
  have h1 := dedupServers_count_le_one
    ((ts.filter (httpBackendKeep ts)).map httpEndpoint) u
  have h2 := dedupServers_mem
    ((ts.filter (httpBackendKeep ts)).map httpEndpoint) u hmem
  have h3 : (httpServers ts).count (some u) ≠ 0 := by
    rw [ne_eq, List.count_eq_zero]
    unfold httpServers
    exact fun hnot => hnot h2
  unfold httpServers at *
  omega

/-- Claim C5 witness: the two same-endpoint local targets collapse to a
single entry on the HTTP branch. -/
theorem c5_witness :
    (httpServers [exC5target, exC5target2]).count (some "http://10.0.0.5:80") = 1 :=
  (c5_http_dedup_only [exC5target, exC5target2] "http://10.0.0.5:80" (by decide)).1

/-! ### Claim C7 -/

/-- Claim C7 counterexample: for an SSL resource with a subdomain whose
full domain has only two labels, the maintenance path computes wildcard
`*.b` while the normal path computes `*.a.b`, so the two TLS blocks
differ. -/
theorem c7_counterexample :
    maintTls exCfgW true "a.b" none none ≠ normalTls exCfgW true "a.b" none none ∧
    (maintTls exCfgW true "a.b" none none).domains = some "*.b" ∧
    (normalTls exCfgW true "a.b" none none).domains = some "*.a.b" := by decide

/-- Claim C7 (amended): the maintenance TLS block equals the normal TLS
block whenever the resource does not combine a subdomain with a full
domain of at most two labels, and the domain's certificate resolver is
either absent or nonempty with a nonempty trim. -/
theorem c7_tls_blocks_agree (cfg : Cfg) (subdomain : Bool) (fd : String)
    (dcr : Option String) (pwc : Option Bool)
    (hw : ¬(subdomain = true ∧ (jsSplit '.' fd).length ≤ 2))
    (hres : dcr = none ∨ ∃ s, dcr = some s ∧ s ≠ "" ∧ jsTrim s ≠ "") :
    maintTls cfg subdomain fd dcr pwc = normalTls cfg subdomain fd dcr pwc := by
  have hwc : maintWildcard subdomain fd = normalWildcard subdomain fd := by
    unfold maintWildcard normalWildcard
    cases hsub : subdomain
    · simp
    · have hlen : ¬((jsSplit '.' fd).length ≤ 2) := fun hle => hw ⟨hsub, hle⟩
      simp [hlen]
  rcases hres with h | ⟨s, hs, hne, htr⟩
  · subst h
    cases pwc <;> simp [maintTls, normalTls, jsOrStr, hwc]
  · subst hs
    cases pwc <;> simp [maintTls, normalTls, jsOrStr, hne, htr, hwc]

/-- Claim C7 witness: the amended agreement at a three-label domain with a
concrete resolver override. -/
theorem c7_witness :
    maintTls exCfgW true "a.b.c" (some "custom") none =
      normalTls exCfgW true "a.b.c" (some "custom") none :=
  c7_tls_blocks_agree exCfgW true "a.b.c" (some "custom") none
    (by decide) (Or.inr ⟨"custom", rfl, by decide, by decide⟩)

/-! ### Claim C8 -/

/-- Claim C8 counterexample: two rows of the same resource with different
(path, pathMatchType, rewritePath, rewritePathType) tuples whose computed
group keys coincide, so aggregation merges the two configurations into a
single route group. -/
theorem c8_counterexample :
    rowKey exR8a = rowKey exR8b ∧
    (exR8a.path, exR8a.pathMatchType, exR8a.rewritePath, exR8a.rewritePathType) ≠
      (exR8b.path, exR8b.pathMatchType, exR8b.rewritePath, exR8b.rewritePathType) ∧
    exR8a.resourceId = exR8b.resourceId ∧
    (buildResourcesMap exExt [exR8a, exR8b]).length = 1 := by decide

/-! ### Aggregation invariants (claims C6 and C8) -/

theorem pushTarget_keys (m : List (String × ResourceGroup)) (key : String)
    (t : TargetWithSite) : (pushTarget m key t).map Prod.fst = m.map Prod.fst := by
  induction m with
  | nil => rfl
  | cons kv rest ih =>
    unfold pushTarget at ih ⊢
    by_cases h : kv.1 = key <;> simp [h, ih]

theorem lookup_eq_none_iff {α : Type} (l : List (String × α)) (k : String) :
    lookup l k = none ↔ k ∉ l.map Prod.fst := by
  induction l with
  | nil => simp [lookup]
  | cons kv rest ih =>
    obtain ⟨k0, v0⟩ := kv
    by_cases h : k0 = k
    · simp [lookup, h]
    · simp [lookup, h, ih, Ne.symm h]

theorem stepRow_keys_nodup (ext : Ext) (row : Row) (m : List (String × ResourceGroup))
    (h : (m.map Prod.fst).Nodup) : ((stepRow ext m row).map Prod.fst).Nodup := by
  cases hl : lookup m (rowKey row) with
  | some g =>
    simp only [stepRow, hl]
    simpa [pushTarget_keys] using h
  | none =>
    by_cases hv : ext.validate row.path row.pathMatchType row.rewritePath
        row.rewritePathType = true
    · have hnot : rowKey row ∉ m.map Prod.fst := (lookup_eq_none_iff m _).mp hl
      simp only [stepRow, hl, if_pos hv]
      rw [pushTarget_keys, List.map_append]
      simp [List.nodup_append, h, hnot]
    · simp only [stepRow, hl, if_neg hv]
      exact h

/-- Claim C8 (amended): the computed key is not injective on distinct
path/rewrite configurations (see the counterexample); what aggregation
does guarantee is exactly one route group per computed key — the group
map's keys are always free of duplicates, rows with colliding
configurations being merged into the first configuration's group. -/
theorem c8_one_group_per_key (ext : Ext) (rows : List Row) :
    ((buildResourcesMap ext rows).map Prod.fst).Nodup := by
  unfold buildResourcesMap
  suffices h : ∀ (m : List (String × ResourceGroup)), (m.map Prod.fst).Nodup →
      ((rows.foldl (stepRow ext) m).map Prod.fst).Nodup by
    exact h [] (by simp)
  induction rows with
  | nil => intro m hm; simpa using hm
  | cons row rest ih =>
    intro m hm
    exact ih _ (stepRow_keys_nodup ext row m hm)

theorem pushTarget_pwc (m : List (String × ResourceGroup)) (key : String)
    (t : TargetWithSite) :
    ∀ kg ∈ pushTarget m key t,
      ∃ kg2 ∈ m, kg.2.preferWildcardCert = kg2.2.preferWildcardCert := by
  intro kg hkg
  unfold pushTarget at hkg
  obtain ⟨kv, hkv, heq⟩ := List.mem_map.mp hkg
  refine ⟨kv, hkv, ?_⟩
  by_cases h : kv.1 = key
  · rw [← heq]
    simp [h]
  · rw [← heq]
    simp [h]

theorem buildResourcesMap_pwc_none (ext : Ext) (rows : List Row) :
    ∀ kg ∈ buildResourcesMap ext rows, kg.2.preferWildcardCert = none := by
  unfold buildResourcesMap
  suffices h : ∀ (m : List (String × ResourceGroup)),
      (∀ kg ∈ m, kg.2.preferWildcardCert = none) →
      ∀ kg ∈ rows.foldl (stepRow ext) m, kg.2.preferWildcardCert = none by
    exact h [] (by simp)
  induction rows with
  | nil => intro m hm; simpa using hm
  | cons row rest ih =>
    intro m hm
    apply ih
    intro kg hkg
    cases hl : lookup m (rowKey row) with
    | some g =>
      simp only [stepRow, hl] at hkg
      obtain ⟨kg2, hkg2, heq⟩ := pushTarget_pwc m (rowKey row) (targetOfRow row) kg hkg
      rw [heq]
      exact hm kg2 hkg2
    | none =>
      by_cases hv : ext.validate row.path row.pathMatchType row.rewritePath
          row.rewritePathType = true
      · simp only [stepRow, hl, if_pos hv] at hkg
        obtain ⟨kg2, hkg2, heq⟩ :=
          pushTarget_pwc (m ++ [(rowKey row, groupOfRow row)]) (rowKey row)
            (targetOfRow row) kg hkg
        rw [heq]
        rcases List.mem_append.mp hkg2 with hin | hin
        · exact hm kg2 hin
        · have hkg3 : kg2 = (rowKey row, groupOfRow row) := by simpa using hin
          rw [hkg3]
          rfl
      · simp only [stepRow, hl, if_neg hv] at hkg
        exact hm kg hkg

/-- Claim C6: the resource-level wildcard override can never take
precedence, because the aggregation step stores no `preferWildcardCert`
field (and the snapshot query selects none): every group carries `none`,
so the TLS wildcard preference always equals the process-wide default, on
the normal and the maintenance path alike. -/
theorem c6_wildcard_override_dead (ext : Ext) (rows : List Row) (key : String)
    (g : ResourceGroup) (h : (key, g) ∈ buildResourcesMap ext rows) :
    g.preferWildcardCert = none ∧
    ∀ (cfg : Cfg) (fd : String),
      (normalTls cfg g.subdomain fd g.domainCertResolver g.preferWildcardCert).domains =
        (if cfg.prefer_wildcard_cert then some (normalWildcard g.subdomain fd) else none) ∧
      (maintTls cfg g.subdomain fd g.domainCertResolver g.preferWildcardCert).domains =
        (if cfg.prefer_wildcard_cert then some (maintWildcard g.subdomain fd) else none) := by
  have hpwc : g.preferWildcardCert = none :=
    buildResourcesMap_pwc_none ext rows (key, g) h
  refine ⟨hpwc, ?_⟩
  intro cfg fd
  rw [hpwc]
  constructor <;> simp [normalTls, maintTls]

/-- Claim C6 witness: the group aggregated from the worked-example row
carries no wildcard override. -/
theorem c6_witness :
    ({ groupOfRow exRow with targets := [targetOfRow exRow] } :
      ResourceGroup).preferWildcardCert = none :=
  (c6_wildcard_override_dead exExt [exRow] (rowKey exRow) _ (by decide)).1

/-! ### The assembler never loses the http section or a defined middleware -/

theorem mem_upsertName (l : List String) (x n : String) (h : n ∈ l) :
    n ∈ upsertName l x := by
  unfold upsertName
  by_cases hx : x ∈ l <;> simp [hx, h]

theorem mem_foldl_upsertName (xs : List String) :
    ∀ (l : List String) (n : String), n ∈ l → n ∈ xs.foldl upsertName l := by
  induction xs with
  | nil => intro l n h; simpa using h
  | cons x rest ih =>
    intro l n h
    exact ih _ n (mem_upsertName l x n h)

theorem emitRaw_http (cfg : Cfg) (key : String) (r : ResourceGroup)
    (out : ConfigOutput) : (emitRaw cfg key r out).http = out.http := by
  unfold emitRaw
  by_cases hc : (!r.enableProxy || !truthyN r.proxyPort) = true <;> simp [hc]

theorem emitHttp_mem (ext : Ext) (cfg : Cfg) (key : String) (r : ResourceGroup)
    (out : ConfigOutput) (s : HttpSection) (n : String)
    (h : out.http = some s) (hm : n ∈ s.middlewares) :
    ∃ s2, (emitHttp ext cfg key r out).http = some s2 ∧ n ∈ s2.middlewares := by
  unfold emitHttp
  by_cases hc : (!truthyN r.domainId || !truthyS r.fullDomain) = true
  · simp only [hc, if_true]
    exact ⟨s, h, hm⟩
  · simp only [hc, if_false, h, Option.getD_some]
    by_cases hs : showMaintenancePage r = true
    · simp only [hs, if_true]
      refine ⟨_, rfl, ?_⟩
      simpa [maintenanceApply] using hm
    · simp only [hs, if_false]
      refine ⟨_, rfl, ?_⟩
      simp only [normalApply]
      repeat' split
      all_goals
        first
          | exact mem_upsertName _ _ n (mem_foldl_upsertName _ _ n hm)
          | exact mem_foldl_upsertName _ _ n hm

theorem emitGroup_mem (ext : Ext) (cfg : Cfg) (key : String) (r : ResourceGroup)
    (out : ConfigOutput) (s : HttpSection) (n : String)
    (h : out.http = some s) (hm : n ∈ s.middlewares) :
    ∃ s2, (emitGroup ext cfg key r out).http = some s2 ∧ n ∈ s2.middlewares := by
  unfold emitGroup
  cases her : r.enabled with
  | false =>
    simp only [her, Bool.not_false, if_true]
    exact ⟨s, h, hm⟩
  | true =>
    cases hh : r.http with
    | true =>
      simp only [her, hh, Bool.not_true, Bool.false_eq_true, if_false, if_true]
      exact emitHttp_mem ext cfg key r out s n h hm
    | false =>
      simp only [her, hh, Bool.not_true, Bool.false_eq_true, if_false]
      refine ⟨s, ?_, hm⟩
      rw [emitRaw_http]
      exact h

theorem foldl_emit_mem (ext : Ext) (cfg : Cfg) (gs : List (String × ResourceGroup)) :
    ∀ (out : ConfigOutput) (s : HttpSection) (n : String),
      out.http = some s → n ∈ s.middlewares →
      ∃ s2, (gs.foldl (fun o kv => emitGroup ext cfg kv.1 kv.2 o) out).http = some s2 ∧
        n ∈ s2.middlewares := by
  induction gs with
  | nil => intro out s n h hm; exact ⟨s, h, hm⟩
  | cons kv rest ih =>
    intro out s n h hm
    obtain ⟨s2, h2, hm2⟩ := emitGroup_mem ext cfg kv.1 kv.2 out s n h hm
    exact ih _ s2 n h2 hm2

/-! ### Claim C9 -/

/-- Claim C9 counterexample: a single HTTP group with no domain is skipped
by the assembler, so no route is emitted, yet the function does not return
the empty object — the returned document contains an `http` section
defining the redirect middleware (and no routers at all). -/
theorem c9_counterexample :
    getTraefikConfig exExt exCfg [exR9] ≠ emptyConfig ∧
    (getTraefikConfig exExt exCfg [exR9]).http =
      some { middlewares := [redirectHttpsMiddlewareName]
             routers := none
             services := none
             serversTransports := none } := by decide

/-- Claim C9 (amended): the synthesizer returns the empty object exactly
when aggregation yields no group at all (an empty row set, or every group
dropped by path-rewrite validation); a group merely skipped during
emission still produces a non-empty document carrying the redirect
middleware. -/
theorem c9_empty_iff_no_groups (ext : Ext) (cfg : Cfg) (rows : List Row) :
    getTraefikConfig ext cfg rows = emptyConfig ↔ buildResourcesMap ext rows = [] := by
  constructor
  · intro h
    by_contra hne
    have hempty : (buildResourcesMap ext rows).isEmpty = false := by
      cases hb : buildResourcesMap ext rows with
      | nil => exact absurd hb hne
      | cons kv rest => rfl
    simp only [getTraefikConfig, hempty, Bool.false_eq_true, if_false] at h
    obtain ⟨s, hs, _⟩ := foldl_emit_mem ext cfg (buildResourcesMap ext rows)
      initialConfig _ redirectHttpsMiddlewareName rfl (by simp [initialConfig])
    rw [h] at hs
    exact absurd hs (by simp [emptyConfig])
  · intro h
    simp only [getTraefikConfig, h]
    rfl

/-- Claim C9 witness: the empty row set yields the empty object. -/
theorem c9_witness : getTraefikConfig exExt exCfg [] = emptyConfig :=
  (c9_empty_iff_no_groups exExt exCfg []).mpr rfl

/-! ### Claim C10 -/

/-- Claim C10: whenever at least one group survives aggregation, the
returned document has an `http` section whose middlewares define
`redirect-to-https`, even when no router or service is emitted. -/
theorem c10_redirect_always_defined (ext : Ext) (cfg : Cfg) (rows : List Row)
    (h : buildResourcesMap ext rows ≠ []) :
    ∃ s, (getTraefikConfig ext cfg rows).http = some s ∧
      redirectHttpsMiddlewareName ∈ s.middlewares := by
  have hempty : (buildResourcesMap ext rows).isEmpty = false := by
    cases hb : buildResourcesMap ext rows with
    | nil => exact absurd hb h
    | cons kv rest => rfl
  simp only [getTraefikConfig, hempty, Bool.false_eq_true, if_false]
  exact foldl_emit_mem ext cfg (buildResourcesMap ext rows)
    initialConfig _ redirectHttpsMiddlewareName rfl (by simp [initialConfig])

/-- Claim C10 witness: a TCP-only row set still yields a document whose
http section defines the redirect middleware. -/
theorem c10_witness :
    ∃ s, (getTraefikConfig exExt exCfg [exRowTcp]).http = some s ∧
      redirectHttpsMiddlewareName ∈ s.middlewares :=
  c10_redirect_always_defined exExt exCfg [exRowTcp] (by decide)

/-! ### Claim C1 -/

theorem emitGroup_http_initial (ext : Ext) (cfg : Cfg) (key : String) (r : ResourceGroup)
    (h1 : r.http = true) (h2 : r.enabled = true)
    (h3 : truthyN r.domainId = true) (h4 : truthyS r.fullDomain = true) :
    emittedRouters ext cfg key r =
      (if showMaintenancePage r then maintenanceApply cfg key r initSec
       else normalApply ext cfg key r initSec).routers.getD [] := by
  cases hs : showMaintenancePage r with
  | true =>
    simp [emittedRouters, emitGroup, emitHttp, h1, h2, h3, h4, hs, initialConfig, initSec]
  | false =>
    simp [emittedRouters, emitGroup, emitHttp, h1, h2, h3, h4, hs, initialConfig, initSec]

theorem maintApply_initSec (cfg : Cfg) (key : String) (r : ResourceGroup) :
    maintenanceEmitted key r ((maintenanceApply cfg key r initSec).routers.getD []) := by
  have hne : ¬(key ++ "-maintenance-router" = key ++ "-maintenance-router" ++ "-redirect") :=
    self_ne_append _ _ (by decide)
  cases hssl : r.ssl with
  | false =>
    have hr : (maintenanceApply cfg key r initSec).routers.getD [] =
        [(key ++ "-maintenance-router", maintenanceRouterEntry cfg key r)] := by
      simp [maintenanceApply, initSec, hssl, upsert]
    rw [maintenanceEmitted, hr]
    refine ⟨⟨maintenanceRouterEntry cfg key r, ?_, rfl, rfl, rfl⟩, ?_⟩
    · simp [lookup]
    · intro n hn
      rw [lookup_isSome_iff] at hn
      simp at hn
      exact Or.inl hn
  | true =>
    have hr : (maintenanceApply cfg key r initSec).routers.getD [] =
        [(key ++ "-maintenance-router", maintenanceRouterEntry cfg key r),
         (key ++ "-maintenance-router" ++ "-redirect", maintenanceRedirectEntry cfg key r)] := by
      simp [maintenanceApply, initSec, hssl, upsert, hne]
    rw [maintenanceEmitted, hr]
    refine ⟨⟨maintenanceRouterEntry cfg key r, ?_, rfl, rfl, rfl⟩, ?_⟩
    · simp [lookup]
    · intro n hn
      rw [lookup_isSome_iff] at hn
      simp at hn
      exact hn

theorem normalApply_initSec (ext : Ext) (cfg : Cfg) (key : String) (r : ResourceGroup) :
    normalEmitted key r ((normalApply ext cfg key r initSec).routers.getD []) := by
  have hne : ¬(key ++ "-" ++ r.name ++ "-router" =
      key ++ "-" ++ r.name ++ "-router" ++ "-redirect") :=
    self_ne_append _ _ (by decide)
  cases hssl : r.ssl with
  | false =>
    have hr : (normalApply ext cfg key r initSec).routers.getD [] =
        [(key ++ "-" ++ r.name ++ "-router", normalRouterEntry ext cfg key r)] := by
      simp [normalApply, initSec, hssl, upsert]
    rw [normalEmitted, hr]
    refine ⟨⟨normalRouterEntry ext cfg key r, ?_, rfl, rfl, rfl⟩, ?_⟩
    · simp [lookup]
    · intro n hn
      rw [lookup_isSome_iff] at hn
      simp at hn
      exact Or.inl hn
  | true =>
    have hr : (normalApply ext cfg key r initSec).routers.getD [] =
        [(key ++ "-" ++ r.name ++ "-router", normalRouterEntry ext cfg key r),
         (key ++ "-" ++ r.name ++ "-router" ++ "-redirect", normalRedirectEntry cfg key r)] := by
      simp [normalApply, initSec, hssl, upsert, hne]
    rw [normalEmitted, hr]
    refine ⟨⟨normalRouterEntry ext cfg key r, ?_, rfl, rfl, rfl⟩, ?_⟩
    · simp [lookup]
    · intro n hn
      rw [lookup_isSome_iff] at hn
      simp at hn
      exact hn

/-- Claim C1: for an HTTP group that reaches emission (enabled resource,
domain present), forced maintenance always yields the maintenance router
(host-only rule, priority 2000) and no normal router; automatic mode
yields the maintenance router exactly when the availability evaluator
finds no eligible target, and the normal router otherwise; disabled
maintenance always yields normal routing. -/
theorem c1_maintenance_decision (ext : Ext) (cfg : Cfg) (key : String) (r : ResourceGroup)
    (h1 : r.http = true) (h2 : r.enabled = true)
    (h3 : truthyN r.domainId = true) (h4 : truthyS r.fullDomain = true) :
    (r.maintenanceModeEnabled = true → r.maintenanceModeType = some "forced" →
      maintenanceEmitted key r (emittedRouters ext cfg key r)) ∧
    (r.maintenanceModeEnabled = true → r.maintenanceModeType = some "automatic" →
      ((availableServers r.targets = [] →
          maintenanceEmitted key r (emittedRouters ext cfg key r)) ∧
        (availableServers r.targets ≠ [] →
          normalEmitted key r (emittedRouters ext cfg key r)))) ∧
    (r.maintenanceModeEnabled = false →
      normalEmitted key r (emittedRouters ext cfg key r)) := by
  have hbase := emitGroup_http_initial ext cfg key r h1 h2 h3 h4
  refine ⟨?_, ?_, ?_⟩
  · intro hm ht
    have hshow : showMaintenancePage r = true := by
      simp [showMaintenancePage, hm, ht]
    rw [hbase, hshow, if_pos rfl]
    exact maintApply_initSec cfg key r
  · intro hm ht
    constructor
    · intro hempty
      have hshow : showMaintenancePage r = true := by
        simp [showMaintenancePage, hm, ht, hasHealthyServers, hempty]
      rw [hbase, hshow, if_pos rfl]
      exact maintApply_initSec cfg key r
    · intro hne
      have hhh : hasHealthyServers r.targets = true := by
        simp [hasHealthyServers, List.length_pos, hne]
      have hshow : showMaintenancePage r = false := by
        simp [showMaintenancePage, hm, ht, hhh]
      rw [hbase, hshow, if_neg (by simp)]
      exact normalApply_initSec ext cfg key r
  · intro hm
    have hshow : showMaintenancePage r = false := by
      simp [showMaintenancePage, hm]
    rw [hbase, hshow, if_neg (by simp)]
    exact normalApply_initSec ext cfg key r

/-- Claim C1 witness: the worked-example group forced into maintenance
emits exactly the maintenance router pair. -/
theorem c1_witness :
    maintenanceEmitted "1" exGroupForced (emittedRouters exExt exCfg "1" exGroupForced) :=
  ((c1_maintenance_decision exExt exCfg "1" exGroupForced rfl rfl (by decide) (by decide)).1)
    rfl rfl

end Pangolin
